import Mathlib

/-
Verification of the refund-eligibility navigator of the Customer-Care-Chatbot
repository. The executable adjudication procedure is the STEP 1 .. STEP 18
logic of `LLMDecisionEngine._navigate_decision_tree_with_llm`
(src/decision_engine.py); slot domains come from
`MermaidDecisionTree._extract_valid_keywords` (src/mermaid_decision_tree.py).
Each Lean definition below embeds one source function or one STEP of that
procedure; theorems settle the spec claims about them.
-/

namespace RefundBot

/-- The four profile facts read by the fast-path gates; in the source they
live in `self.customer_data` (keys account_status, loyalty_tier, fraud_flag,
return_abuse). -/
structure Profile where
  account_status : String
  loyalty_tier : String
  fraud_flag : String
  return_abuse : String
deriving DecidableEq, Repr

/-- The conversation-derived slot store `self.extracted_info`: a string-keyed
dictionary, modelled as an association list with unique keys maintained by
`storeSet`. -/
abbrev SlotStore := List (String × String)

/-- Dictionary read, `self.extracted_info.get(key)`: first binding wins. -/
def getSlot : SlotStore → String → Option String
  | [], _ => none
  | (k2, v) :: rest, k => if k2 = k then some v else getSlot rest k

/-- Dictionary write `self.extracted_info[key] = value`: overwrites an
existing binding, otherwise appends. -/
def storeSet : SlotStore → String → String → SlotStore
  | [], k, v => [(k, v)]
  | (k2, v2) :: rest, k, v =>
      if k2 = k then (k, v) :: rest else (k2, v2) :: storeSet rest k v

/-- Result of one navigation call: either the next missing field
(status NEED_INFO) or a terminal decision (status DECISION) carrying its
outcome kind (approve / deny / partial / manual_review) and terminal-node
name. -/
inductive NavResult where
  | needInfo (field : String)
  | decision (kind : String) (name : String)
deriving DecidableEq, Repr

/-- A navigation result together with the ordered list of STEP numbers
visited (the audit path). -/
abbrev NavOut := NavResult × List Nat

/-- STEP 17: bnpl_policy check (only for payment_method = BNPL). -/
def step17 (s : SlotStore) : NavOut :=
  match getSlot s "bnpl_policy" with
  | none => (.needInfo "bnpl_policy", [17])
  | some v =>
      if v = "No" then (.decision "deny" "RefundDenied10", [17])
      else (.decision "approve" "RefundApproved", [17])

/-- STEP 18: gift_card_policy check (only for payment_method = GiftCard). -/
def step18 (s : SlotStore) : NavOut :=
  match getSlot s "gift_card_policy" with
  | none => (.needInfo "gift_card_policy", [18])
  | some v =>
      if v = "No" then (.decision "deny" "RefundDenied11", [18])
      else (.decision "approve" "RefundApproved", [18])

/-- STEP 16: payment_method check; BNPL goes to STEP 17, GiftCard to STEP 18,
CreditCard or Prepaid approve immediately. -/
def step16 (s : SlotStore) : NavOut :=
  match getSlot s "payment_method" with
  | none => (.needInfo "payment_method", [16])
  | some v =>
      if v = "BNPL" then ((step17 s).1, 16 :: (step17 s).2)
      else if v = "GiftCard" then ((step18 s).1, 16 :: (step18 s).2)
      else (.decision "approve" "RefundApproved", [16])

/-- STEP 14: in_house_policy check (only for seller_type = In-house). -/
def step14 (s : SlotStore) : NavOut :=
  match getSlot s "in_house_policy" with
  | none => (.needInfo "in_house_policy", [14])
  | some v =>
      if v = "No" then (.decision "deny" "RefundDenied8", [14])
      else ((step16 s).1, 14 :: (step16 s).2)

/-- STEP 15: third_party_policy check (only for seller_type = Third-party). -/
def step15 (s : SlotStore) : NavOut :=
  match getSlot s "third_party_policy" with
  | none => (.needInfo "third_party_policy", [15])
  | some v =>
      if v = "No" then (.decision "deny" "RefundDenied9", [15])
      else ((step16 s).1, 15 :: (step16 s).2)

/-- STEP 13: seller_type check (only for delivered = Yes). -/
def step13 (s : SlotStore) : NavOut :=
  match getSlot s "seller_type" with
  | none => (.needInfo "seller_type", [13])
  | some v =>
      if v = "In-house" then ((step14 s).1, 13 :: (step14 s).2)
      else ((step15 s).1, 13 :: (step15 s).2)

/-- STEP 12: shipping_issue check (only for delivered = No). -/
def step12 (s : SlotStore) : NavOut :=
  match getSlot s "shipping_issue" with
  | none => (.needInfo "shipping_issue", [12])
  | some v =>
      if v = "Lost" then (.decision "approve" "RefundApprovedLost", [12])
      else if v = "Delayed" then (.decision "manual_review" "ManualReview2", [12])
      else (.decision "deny" "RefundDenied7", [12])

/-- STEP 11: delivered check. -/
def step11 (s : SlotStore) : NavOut :=
  match getSlot s "delivered" with
  | none => (.needInfo "delivered", [11])
  | some v =>
      if v = "No" then ((step12 s).1, 11 :: (step12 s).2)
      else ((step13 s).1, 11 :: (step13 s).2)

/-- STEP 9: late_return_eligible check (only when return_window = expired).
A Yes answer is the terminal partial-refund outcome. -/
def step9 (s : SlotStore) : NavOut :=
  match getSlot s "late_return_eligible" with
  | none => (.needInfo "late_return_eligible", [9])
  | some v =>
      if v = "No" then (.decision "deny" "RefundDenied6", [9])
      else (.decision "partial" "PartialRefund", [9])

/-- STEP 8: return_window check (only for item_condition = normal); within
skips to STEP 11, expired continues to STEP 9. -/
def step8 (s : SlotStore) : NavOut :=
  match getSlot s "return_window" with
  | none => (.needInfo "return_window", [8])
  | some v =>
      if v = "expired" then ((step9 s).1, 8 :: (step9 s).2)
      else ((step11 s).1, 8 :: (step11 s).2)

/-- STEP 7: item_condition check; damaged or defective skips directly to the
delivered check (STEP 11), normal continues to STEP 8. -/
def step7 (s : SlotStore) : NavOut :=
  match getSlot s "item_condition" with
  | none => (.needInfo "item_condition", [7])
  | some v =>
      if v = "damaged" ∨ v = "defective" then ((step11 s).1, 7 :: (step11 s).2)
      else ((step8 s).1, 7 :: (step8 s).2)

/-- STEP 6: item_returnable check. -/
def step6 (s : SlotStore) : NavOut :=
  match getSlot s "item_returnable" with
  | none => (.needInfo "item_returnable", [6])
  | some v =>
      if v = "No" then (.decision "deny" "RefundDenied5", [6])
      else ((step7 s).1, 6 :: (step7 s).2)

/-- STEP 5: item_category check; Perishable and Digital deny immediately,
Physical continues to STEP 6. -/
def step5 (s : SlotStore) : NavOut :=
  match getSlot s "item_category" with
  | none => (.needInfo "item_category", [5])
  | some v =>
      if v = "Perishable" then (.decision "deny" "RefundDenied3", [5])
      else if v = "Digital" then (.decision "deny" "RefundDenied4", [5])
      else ((step6 s).1, 5 :: (step6 s).2)

/-- STEP 4: return_abuse gate; reads only the return_abuse profile fact. -/
def step4 (returnAbuse : String) (s : SlotStore) : NavOut :=
  if returnAbuse = "Yes" then (.decision "manual_review" "ManualReview", [4])
  else ((step5 s).1, 4 :: (step5 s).2)

/-- STEPS 1 to 3 plus the chained item-level procedure: the full navigation
of `_navigate_decision_tree_with_llm`. STEP 1 denies any account not in good
standing; STEP 2 routes Gold customers through the fraud gate (STEP 3) while
Bronze and Silver go straight to STEP 4. -/
def navigate (p : Profile) (s : SlotStore) : NavOut :=
  if p.account_status ≠ "good_standing" then (.decision "deny" "RefundDenied1", [1])
  else if p.loyalty_tier = "Gold" then
    if p.fraud_flag = "Yes" then (.decision "deny" "RefundDenied2", [1, 2, 3])
    else ((step4 p.return_abuse s).1, 1 :: 2 :: 3 :: (step4 p.return_abuse s).2)
  else ((step4 p.return_abuse s).1, 1 :: 2 :: (step4 p.return_abuse s).2)

/-- The spec's `decide(profile, slots)`: the navigation result alone. -/
def decide (p : Profile) (s : SlotStore) : NavResult := (navigate p s).1

/-- The audit path of a navigation: the ordered STEP numbers visited. -/
def navPath (p : Profile) (s : SlotStore) : List Nat := (navigate p s).2

/-- Helper: a lower bound on a consed path element list. -/
theorem pathGeCons {k : Nat} {l : List Nat} (hk : 4 ≤ k) (hl : ∀ n ∈ l, 4 ≤ n) :
    ∀ n ∈ k :: l, 4 ≤ n := by
  intro n hn
  rcases List.mem_cons.mp hn with rfl | h
  · exact hk
  · exact hl n h

/-- STEP 9 always records exactly its own step number. -/
theorem step9_path (s : SlotStore) : (step9 s).2 = [9] := by
  cases hv : getSlot s "late_return_eligible" <;> simp only [step9, hv]
  · split <;> rfl

/-- STEP 12 always records exactly its own step number. -/
theorem step12_path (s : SlotStore) : (step12 s).2 = [12] := by
  cases hv : getSlot s "shipping_issue" <;> simp only [step12, hv]
  · split <;> try split
    all_goals rfl

/-- STEP 17 always records exactly its own step number. -/
theorem step17_path (s : SlotStore) : (step17 s).2 = [17] := by
  cases hv : getSlot s "bnpl_policy" <;> simp only [step17, hv]
  · split <;> rfl

/-- STEP 18 always records exactly its own step number. -/
theorem step18_path (s : SlotStore) : (step18 s).2 = [18] := by
  cases hv : getSlot s "gift_card_policy" <;> simp only [step18, hv]
  · split <;> rfl

/-- Every step number recorded from STEP 16 onward is at least 4. -/
theorem step16_path_ge (s : SlotStore) : ∀ n ∈ (step16 s).2, 4 ≤ n := by
  cases hv : getSlot s "payment_method" <;> simp only [step16, hv]
  · decide
  · split
    · exact pathGeCons (by omega) (by rw [step17_path]; decide)
    · split
      · exact pathGeCons (by omega) (by rw [step18_path]; decide)
      · decide

/-- Every step number recorded from STEP 14 onward is at least 4. -/
theorem step14_path_ge (s : SlotStore) : ∀ n ∈ (step14 s).2, 4 ≤ n := by
  cases hv : getSlot s "in_house_policy" <;> simp only [step14, hv]
  · decide
  · split
    · decide
    · exact pathGeCons (by omega) (step16_path_ge s)

/-- Every step number recorded from STEP 15 onward is at least 4. -/
theorem step15_path_ge (s : SlotStore) : ∀ n ∈ (step15 s).2, 4 ≤ n := by
  cases hv : getSlot s "third_party_policy" <;> simp only [step15, hv]
  · decide
  · split
    · decide
    · exact pathGeCons (by omega) (step16_path_ge s)

/-- Every step number recorded from STEP 13 onward is at least 4. -/
theorem step13_path_ge (s : SlotStore) : ∀ n ∈ (step13 s).2, 4 ≤ n := by
  cases hv : getSlot s "seller_type" <;> simp only [step13, hv]
  · decide
  · split
    · exact pathGeCons (by omega) (step14_path_ge s)
    · exact pathGeCons (by omega) (step15_path_ge s)

/-- Every step number recorded from STEP 11 onward is at least 4. -/
theorem step11_path_ge (s : SlotStore) : ∀ n ∈ (step11 s).2, 4 ≤ n := by
  cases hv : getSlot s "delivered" <;> simp only [step11, hv]
  · decide
  · split
    · exact pathGeCons (by omega) (by rw [step12_path]; decide)
    · exact pathGeCons (by omega) (step13_path_ge s)

/-- Every step number recorded from STEP 8 onward is at least 4. -/
theorem step8_path_ge (s : SlotStore) : ∀ n ∈ (step8 s).2, 4 ≤ n := by
  cases hv : getSlot s "return_window" <;> simp only [step8, hv]
  · decide
  · split
    · exact pathGeCons (by omega) (by rw [step9_path]; decide)
    · exact pathGeCons (by omega) (step11_path_ge s)

/-- Every step number recorded from STEP 7 onward is at least 4. -/
theorem step7_path_ge (s : SlotStore) : ∀ n ∈ (step7 s).2, 4 ≤ n := by
  cases hv : getSlot s "item_condition" <;> simp only [step7, hv]
  · decide
  · split
    · exact pathGeCons (by omega) (step11_path_ge s)
    · exact pathGeCons (by omega) (step8_path_ge s)

/-- Every step number recorded from STEP 6 onward is at least 4. -/
theorem step6_path_ge (s : SlotStore) : ∀ n ∈ (step6 s).2, 4 ≤ n := by
  cases hv : getSlot s "item_returnable" <;> simp only [step6, hv]
  · decide
  · split
    · decide
    · exact pathGeCons (by omega) (step7_path_ge s)

/-- Every step number recorded from STEP 5 onward is at least 4. -/
theorem step5_path_ge (s : SlotStore) : ∀ n ∈ (step5 s).2, 4 ≤ n := by
  cases hv : getSlot s "item_category" <;> simp only [step5, hv]
  · decide
  · split
    · decide
    · split
      · decide
      · exact pathGeCons (by omega) (step6_path_ge s)

/-- Every step number recorded from STEP 4 onward is at least 4. -/
theorem step4_path_ge (a : String) (s : SlotStore) : ∀ n ∈ (step4 a s).2, 4 ≤ n := by
  unfold step4
  split
  · decide
  · exact pathGeCons (by omega) (step5_path_ge s)

/-- The STEP 4 subtree records a path starting with step number 4. -/
theorem step4_head (a : String) (s : SlotStore) : ∃ l, (step4 a s).2 = 4 :: l := by
  unfold step4
  split
  · exact ⟨[], rfl⟩
  · exact ⟨_, rfl⟩

/-- The STEP 11 subtree records a path starting with step number 11. -/
theorem step11_head (s : SlotStore) : ∃ l, (step11 s).2 = 11 :: l := by
  cases hv : getSlot s "delivered" <;> simp only [step11, hv]
  · exact ⟨[], rfl⟩
  · split
    · exact ⟨_, rfl⟩
    · exact ⟨_, rfl⟩

/-- Path length bound for the STEP 16 subtree. -/
theorem step16_len (s : SlotStore) : (step16 s).2.length ≤ 2 := by
  cases hv : getSlot s "payment_method" <;> simp only [step16, hv]
  · decide
  · split
    · simp [step17_path]
    · split
      · simp [step18_path]
      · decide

/-- Path length bound for the STEP 14 subtree. -/
theorem step14_len (s : SlotStore) : (step14 s).2.length ≤ 3 := by
  cases hv : getSlot s "in_house_policy" <;> simp only [step14, hv]
  · decide
  · split
    · decide
    · have := step16_len s
      simp only [List.length_cons]
      omega

/-- Path length bound for the STEP 15 subtree. -/
theorem step15_len (s : SlotStore) : (step15 s).2.length ≤ 3 := by
  cases hv : getSlot s "third_party_policy" <;> simp only [step15, hv]
  · decide
  · split
    · decide
    · have := step16_len s
      simp only [List.length_cons]
      omega

/-- Path length bound for the STEP 13 subtree. -/
theorem step13_len (s : SlotStore) : (step13 s).2.length ≤ 4 := by
  cases hv : getSlot s "seller_type" <;> simp only [step13, hv]
  · decide
  · split
    · have := step14_len s
      simp only [List.length_cons]
      omega
    · have := step15_len s
      simp only [List.length_cons]
      omega

/-- Path length bound for the STEP 11 subtree. -/
theorem step11_len (s : SlotStore) : (step11 s).2.length ≤ 5 := by
  cases hv : getSlot s "delivered" <;> simp only [step11, hv]
  · decide
  · split
    · simp [step12_path]
    · have := step13_len s
      simp only [List.length_cons]
      omega

/-- Path length bound for the STEP 8 subtree. -/
theorem step8_len (s : SlotStore) : (step8 s).2.length ≤ 6 := by
  cases hv : getSlot s "return_window" <;> simp only [step8, hv]
  · decide
  · split
    · simp [step9_path]
    · have := step11_len s
      simp only [List.length_cons]
      omega

/-- Path length bound for the STEP 7 subtree. -/
theorem step7_len (s : SlotStore) : (step7 s).2.length ≤ 7 := by
  cases hv : getSlot s "item_condition" <;> simp only [step7, hv]
  · decide
  · split
    · have := step11_len s
      simp only [List.length_cons]
      omega
    · have := step8_len s
      simp only [List.length_cons]
      omega

/-- Path length bound for the STEP 6 subtree. -/
theorem step6_len (s : SlotStore) : (step6 s).2.length ≤ 8 := by
  cases hv : getSlot s "item_returnable" <;> simp only [step6, hv]
  · decide
  · split
    · decide
    · have := step7_len s
      simp only [List.length_cons]
      omega

/-- Path length bound for the STEP 5 subtree. -/
theorem step5_len (s : SlotStore) : (step5 s).2.length ≤ 9 := by
  cases hv : getSlot s "item_category" <;> simp only [step5, hv]
  · decide
  · split
    · decide
    · split
      · decide
      · have := step6_len s
        simp only [List.length_cons]
        omega

/-- Path length bound for the STEP 4 subtree. -/
theorem step4_len (a : String) (s : SlotStore) : (step4 a s).2.length ≤ 10 := by
  unfold step4
  split
  · decide
  · have := step5_len s
    simp only [List.length_cons]
    omega

/-- Path length bound for a full navigation. -/
theorem navPath_len (p : Profile) (s : SlotStore) : (navPath p s).length ≤ 13 := by
  unfold navPath navigate
  split
  · decide
  · split
    · split
      · decide
      · have := step4_len p.return_abuse s
        simp only [List.length_cons]
        omega
    · have := step4_len p.return_abuse s
      simp only [List.length_cons]
      omega

/-- No result of the STEP 17 subtree is the fraud denial RefundDenied2. -/
theorem step17_noRD2 (s : SlotStore) :
    ∀ k, (step17 s).1 ≠ NavResult.decision k "RefundDenied2" := by
  cases hv : getSlot s "bnpl_policy" <;> simp only [step17, hv]
  · simp
  · split <;> simp

/-- No result of the STEP 18 subtree is the fraud denial RefundDenied2. -/
theorem step18_noRD2 (s : SlotStore) :
    ∀ k, (step18 s).1 ≠ NavResult.decision k "RefundDenied2" := by
  cases hv : getSlot s "gift_card_policy" <;> simp only [step18, hv]
  · simp
  · split <;> simp

/-- No result of the STEP 16 subtree is the fraud denial RefundDenied2. -/
theorem step16_noRD2 (s : SlotStore) :
    ∀ k, (step16 s).1 ≠ NavResult.decision k "RefundDenied2" := by
  cases hv : getSlot s "payment_method" <;> simp only [step16, hv]
  · simp
  · split
    · exact step17_noRD2 s
    · split
      · exact step18_noRD2 s
      · simp

/-- No result of the STEP 14 subtree is the fraud denial RefundDenied2. -/
theorem step14_noRD2 (s : SlotStore) :
    ∀ k, (step14 s).1 ≠ NavResult.decision k "RefundDenied2" := by
  cases hv : getSlot s "in_house_policy" <;> simp only [step14, hv]
  · simp
  · split
    · simp
    · exact step16_noRD2 s

/-- No result of the STEP 15 subtree is the fraud denial RefundDenied2. -/
theorem step15_noRD2 (s : SlotStore) :
    ∀ k, (step15 s).1 ≠ NavResult.decision k "RefundDenied2" := by
  cases hv : getSlot s "third_party_policy" <;> simp only [step15, hv]
  · simp
  · split
    · simp
    · exact step16_noRD2 s

/-- No result of the STEP 13 subtree is the fraud denial RefundDenied2. -/
theorem step13_noRD2 (s : SlotStore) :
    ∀ k, (step13 s).1 ≠ NavResult.decision k "RefundDenied2" := by
  cases hv : getSlot s "seller_type" <;> simp only [step13, hv]
  · simp
  · split
    · exact step14_noRD2 s
    · exact step15_noRD2 s

/-- No result of the STEP 12 subtree is the fraud denial RefundDenied2. -/
theorem step12_noRD2 (s : SlotStore) :
    ∀ k, (step12 s).1 ≠ NavResult.decision k "RefundDenied2" := by
  cases hv : getSlot s "shipping_issue" <;> simp only [step12, hv]
  · simp
  · split
    · simp
    · split <;> simp

/-- No result of the STEP 11 subtree is the fraud denial RefundDenied2. -/
theorem step11_noRD2 (s : SlotStore) :
    ∀ k, (step11 s).1 ≠ NavResult.decision k "RefundDenied2" := by
  cases hv : getSlot s "delivered" <;> simp only [step11, hv]
  · simp
  · split
    · exact step12_noRD2 s
    · exact step13_noRD2 s

/-- No result of the STEP 9 subtree is the fraud denial RefundDenied2. -/
theorem step9_noRD2 (s : SlotStore) :
    ∀ k, (step9 s).1 ≠ NavResult.decision k "RefundDenied2" := by
  cases hv : getSlot s "late_return_eligible" <;> simp only [step9, hv]
  · simp
  · split <;> simp

/-- No result of the STEP 8 subtree is the fraud denial RefundDenied2. -/
theorem step8_noRD2 (s : SlotStore) :
    ∀ k, (step8 s).1 ≠ NavResult.decision k "RefundDenied2" := by
  cases hv : getSlot s "return_window" <;> simp only [step8, hv]
  · simp
  · split
    · exact step9_noRD2 s
    · exact step11_noRD2 s

/-- No result of the STEP 7 subtree is the fraud denial RefundDenied2. -/
theorem step7_noRD2 (s : SlotStore) :
    ∀ k, (step7 s).1 ≠ NavResult.decision k "RefundDenied2" := by
  cases hv : getSlot s "item_condition" <;> simp only [step7, hv]
  · simp
  · split
    · exact step11_noRD2 s
    · exact step8_noRD2 s

/-- No result of the STEP 6 subtree is the fraud denial RefundDenied2. -/
theorem step6_noRD2 (s : SlotStore) :
    ∀ k, (step6 s).1 ≠ NavResult.decision k "RefundDenied2" := by
  cases hv : getSlot s "item_returnable" <;> simp only [step6, hv]
  · simp
  · split
    · simp
    · exact step7_noRD2 s

/-- No result of the STEP 5 subtree is the fraud denial RefundDenied2. -/
theorem step5_noRD2 (s : SlotStore) :
    ∀ k, (step5 s).1 ≠ NavResult.decision k "RefundDenied2" := by
  cases hv : getSlot s "item_category" <;> simp only [step5, hv]
  · simp
  · split
    · simp
    · split
      · simp
      · exact step6_noRD2 s

/-- No result of the STEP 4 subtree is the fraud denial RefundDenied2. -/
theorem step4_noRD2 (a : String) (s : SlotStore) :
    ∀ k, (step4 a s).1 ≠ NavResult.decision k "RefundDenied2" := by
  unfold step4
  split
  · simp
  · exact step5_noRD2 s

/-- The STEP 17 subtree never asks for return_window or late_return_eligible. -/
theorem step17_noRW (s : SlotStore) :
    (step17 s).1 ≠ NavResult.needInfo "return_window"
    ∧ (step17 s).1 ≠ NavResult.needInfo "late_return_eligible" := by
  cases hv : getSlot s "bnpl_policy" <;> simp only [step17, hv]
  · simp
  · split <;> simp

/-- The STEP 18 subtree never asks for return_window or late_return_eligible. -/
theorem step18_noRW (s : SlotStore) :
    (step18 s).1 ≠ NavResult.needInfo "return_window"
    ∧ (step18 s).1 ≠ NavResult.needInfo "late_return_eligible" := by
  cases hv : getSlot s "gift_card_policy" <;> simp only [step18, hv]
  · simp
  · split <;> simp

/-- The STEP 16 subtree never asks for return_window or late_return_eligible. -/
theorem step16_noRW (s : SlotStore) :
    (step16 s).1 ≠ NavResult.needInfo "return_window"
    ∧ (step16 s).1 ≠ NavResult.needInfo "late_return_eligible" := by
  cases hv : getSlot s "payment_method" <;> simp only [step16, hv]
  · simp
  · split
    · exact step17_noRW s
    · split
      · exact step18_noRW s
      · simp

/-- The STEP 14 subtree never asks for return_window or late_return_eligible. -/
theorem step14_noRW (s : SlotStore) :
    (step14 s).1 ≠ NavResult.needInfo "return_window"
    ∧ (step14 s).1 ≠ NavResult.needInfo "late_return_eligible" := by
  cases hv : getSlot s "in_house_policy" <;> simp only [step14, hv]
  · simp
  · split
    · simp
    · exact step16_noRW s

/-- The STEP 15 subtree never asks for return_window or late_return_eligible. -/
theorem step15_noRW (s : SlotStore) :
    (step15 s).1 ≠ NavResult.needInfo "return_window"
    ∧ (step15 s).1 ≠ NavResult.needInfo "late_return_eligible" := by
  cases hv : getSlot s "third_party_policy" <;> simp only [step15, hv]
  · simp
  · split
    · simp
    · exact step16_noRW s

/-- The STEP 13 subtree never asks for return_window or late_return_eligible. -/
theorem step13_noRW (s : SlotStore) :
    (step13 s).1 ≠ NavResult.needInfo "return_window"
    ∧ (step13 s).1 ≠ NavResult.needInfo "late_return_eligible" := by
  cases hv : getSlot s "seller_type" <;> simp only [step13, hv]
  · simp
  · split
    · exact step14_noRW s
    · exact step15_noRW s

/-- The STEP 12 subtree never asks for return_window or late_return_eligible. -/
theorem step12_noRW (s : SlotStore) :
    (step12 s).1 ≠ NavResult.needInfo "return_window"
    ∧ (step12 s).1 ≠ NavResult.needInfo "late_return_eligible" := by
  cases hv : getSlot s "shipping_issue" <;> simp only [step12, hv]
  · simp
  · split
    · simp
    · split <;> simp

/-- The STEP 11 subtree (the delivered check and everything after it) never
asks for return_window or late_return_eligible. -/
theorem step11_noRW (s : SlotStore) :
    (step11 s).1 ≠ NavResult.needInfo "return_window"
    ∧ (step11 s).1 ≠ NavResult.needInfo "late_return_eligible" := by
  cases hv : getSlot s "delivered" <;> simp only [step11, hv]
  · simp
  · split
    · exact step12_noRW s
    · exact step13_noRW s

/-- If STEP 16 appears on the path of the STEP 14 subtree, the result is the
payment-step result. -/
theorem step14_mem16 (s : SlotStore) (h : 16 ∈ (step14 s).2) :
    (step14 s).1 = (step16 s).1 := by
  revert h
  cases hv : getSlot s "in_house_policy" <;> simp only [step14, hv]
  · simp
  · split
    · simp
    · intro _
      rfl

/-- If STEP 16 appears on the path of the STEP 15 subtree, the result is the
payment-step result. -/
theorem step15_mem16 (s : SlotStore) (h : 16 ∈ (step15 s).2) :
    (step15 s).1 = (step16 s).1 := by
  revert h
  cases hv : getSlot s "third_party_policy" <;> simp only [step15, hv]
  · simp
  · split
    · simp
    · intro _
      rfl

/-- If STEP 16 appears on the path of the STEP 13 subtree, the result is the
payment-step result. -/
theorem step13_mem16 (s : SlotStore) (h : 16 ∈ (step13 s).2) :
    (step13 s).1 = (step16 s).1 := by
  revert h
  cases hv : getSlot s "seller_type" <;> simp only [step13, hv]
  · simp
  · split
    · intro h
      exact step14_mem16 s (by simpa using h)
    · intro h
      exact step15_mem16 s (by simpa using h)

/-- If STEP 16 appears on the path of the STEP 11 subtree, the result is the
payment-step result. -/
theorem step11_mem16 (s : SlotStore) (h : 16 ∈ (step11 s).2) :
    (step11 s).1 = (step16 s).1 := by
  revert h
  cases hv : getSlot s "delivered" <;> simp only [step11, hv]
  · simp
  · split
    · rw [step12_path]
      simp
    · intro h
      exact step13_mem16 s (by simpa using h)

/-- If STEP 16 appears on the path of the STEP 8 subtree, the result is the
payment-step result. -/
theorem step8_mem16 (s : SlotStore) (h : 16 ∈ (step8 s).2) :
    (step8 s).1 = (step16 s).1 := by
  revert h
  cases hv : getSlot s "return_window" <;> simp only [step8, hv]
  · simp
  · split
    · rw [step9_path]
      simp
    · intro h
      exact step11_mem16 s (by simpa using h)

/-- If STEP 16 appears on the path of the STEP 7 subtree, the result is the
payment-step result. -/
theorem step7_mem16 (s : SlotStore) (h : 16 ∈ (step7 s).2) :
    (step7 s).1 = (step16 s).1 := by
  revert h
  cases hv : getSlot s "item_condition" <;> simp only [step7, hv]
  · simp
  · split
    · intro h
      exact step11_mem16 s (by simpa using h)
    · intro h
      exact step8_mem16 s (by simpa using h)

/-- If STEP 16 appears on the path of the STEP 6 subtree, the result is the
payment-step result. -/
theorem step6_mem16 (s : SlotStore) (h : 16 ∈ (step6 s).2) :
    (step6 s).1 = (step16 s).1 := by
  revert h
  cases hv : getSlot s "item_returnable" <;> simp only [step6, hv]
  · simp
  · split
    · simp
    · intro h
      exact step7_mem16 s (by simpa using h)

/-- If STEP 16 appears on the path of the STEP 5 subtree, the result is the
payment-step result. -/
theorem step5_mem16 (s : SlotStore) (h : 16 ∈ (step5 s).2) :
    (step5 s).1 = (step16 s).1 := by
  revert h
  cases hv : getSlot s "item_category" <;> simp only [step5, hv]
  · simp
  · split
    · simp
    · split
      · simp
      · intro h
        exact step6_mem16 s (by simpa using h)

/-- If STEP 16 appears on the path of the STEP 4 subtree, the result is the
payment-step result. -/
theorem step4_mem16 (a : String) (s : SlotStore) (h : 16 ∈ (step4 a s).2) :
    (step4 a s).1 = (step16 s).1 := by
  revert h
  unfold step4
  split
  · simp
  · intro h
    exact step5_mem16 s (by simpa using h)

/-- If STEP 16 appears on a full navigation path, the navigation result is
the payment-step result. -/
theorem navigate_mem16 (p : Profile) (s : SlotStore) (h : 16 ∈ navPath p s) :
    decide p s = (step16 s).1 := by
  revert h
  unfold navPath decide navigate
  split
  · simp
  · split
    · split
      · simp
      · intro h
        exact step4_mem16 p.return_abuse s (by simpa using h)
    · intro h
      exact step4_mem16 p.return_abuse s (by simpa using h)

/-- C1: with a good-standing account and fraud_flag = "Yes", decide reaches
Decision(deny, RefundDenied2) exactly when loyalty_tier = "Gold"; for Bronze
or Silver the fraud gate (STEP 3) is skipped, navigation reaches the
return_abuse gate (STEP 4), and the result does not depend on fraud_flag. -/
theorem fraud_gate_gold_only (p : Profile) (s : SlotStore)
    (hacct : p.account_status = "good_standing") :
    (p.fraud_flag = "Yes" →
      (decide p s = NavResult.decision "deny" "RefundDenied2" ↔ p.loyalty_tier = "Gold"))
    ∧ ((p.loyalty_tier = "Bronze" ∨ p.loyalty_tier = "Silver") →
        4 ∈ navPath p s ∧ 3 ∉ navPath p s
        ∧ ∀ f, decide { p with fraud_flag := f } s = decide p s) := by
  by_cases hg : p.loyalty_tier = "Gold"
  · refine ⟨fun hf => ⟨fun _ => hg, fun _ => ?_⟩, ?_⟩
    · simp [decide, navigate, hacct, hg, hf]
    · rintro (hb | hb) <;> rw [hg] at hb <;> simp at hb
  · constructor
    · intro hf
      constructor
      · intro hd
        exfalso
        have heq : decide p s = (step4 p.return_abuse s).1 := by
          simp [decide, navigate, hacct, hg]
        rw [heq] at hd
        exact step4_noRD2 p.return_abuse s "deny" hd
      · intro h
        exact absurd h hg
    · intro _
      have hpath : navPath p s = 1 :: 2 :: (step4 p.return_abuse s).2 := by
        simp [navPath, navigate, hacct, hg]
      refine ⟨?_, ?_, ?_⟩
      · rw [hpath]
        rcases step4_head p.return_abuse s with ⟨l, hl⟩
        simp [hl]
      · rw [hpath]
        intro h
        simp only [List.mem_cons] at h
        rcases h with h | h | h
        · exact absurd h (by decide)
        · exact absurd h (by decide)
        · exact absurd (step4_path_ge p.return_abuse s 3 h) (by omega)
      · intro f
        simp [decide, navigate, hacct, hg]

/-- C1 witness: a good-standing Gold profile with fraud_flag = "Yes" is
denied with RefundDenied2. -/
theorem fraud_gate_gold_only_witness :
    decide ⟨"good_standing", "Gold", "Yes", "No"⟩ [] =
      NavResult.decision "deny" "RefundDenied2" :=
  ((fraud_gate_gold_only ⟨"good_standing", "Gold", "Yes", "No"⟩ [] rfl).1 rfl).mpr rfl

/-- C2: any input that reaches the payment step (STEP 16) with
payment_method = "GiftCard" and gift_card_policy = "No" gets the immediate
terminal Decision(deny, RefundDenied11); the payment step itself evaluates to
exactly that denial with path [16, 18]. -/
theorem giftcard_policy_denial_terminal (p : Profile) (s : SlotStore)
    (hpm : getSlot s "payment_method" = some "GiftCard")
    (hgc : getSlot s "gift_card_policy" = some "No")
    (hreach : 16 ∈ navPath p s) :
    decide p s = NavResult.decision "deny" "RefundDenied11"
    ∧ step16 s = (NavResult.decision "deny" "RefundDenied11", [16, 18]) := by
  have h16 : step16 s = (NavResult.decision "deny" "RefundDenied11", [16, 18]) := by
    simp [step16, hpm, step18, hgc]
  refine ⟨?_, h16⟩
  rw [navigate_mem16 p s hreach, h16]

/-- C2 witness: a concrete full slot store reaching the payment step with a
denied gift-card policy is denied with RefundDenied11. -/
theorem giftcard_policy_denial_terminal_witness :
    decide ⟨"good_standing", "Gold", "No", "No"⟩
      [("item_category", "Physical"), ("item_returnable", "Yes"),
       ("item_condition", "damaged"), ("delivered", "Yes"),
       ("seller_type", "In-house"), ("in_house_policy", "Yes"),
       ("payment_method", "GiftCard"), ("gift_card_policy", "No")] =
      NavResult.decision "deny" "RefundDenied11" :=
  (giftcard_policy_denial_terminal ⟨"good_standing", "Gold", "No", "No"⟩
    [("item_category", "Physical"), ("item_returnable", "Yes"),
     ("item_condition", "damaged"), ("delivered", "Yes"),
     ("seller_type", "In-house"), ("in_house_policy", "Yes"),
     ("payment_method", "GiftCard"), ("gift_card_policy", "No")]
    (by decide) (by decide) (by decide)).1

/-- C3: account_status = "not_good_standing" yields Decision(deny,
RefundDenied1) for every profile and slot store, with path [1]. -/
theorem not_good_standing_always_denied (p : Profile) (s : SlotStore)
    (h : p.account_status = "not_good_standing") :
    decide p s = NavResult.decision "deny" "RefundDenied1" ∧ navPath p s = [1] := by
  constructor <;> simp [decide, navPath, navigate, h]

/-- C3 witness: a not-good-standing profile whose every other field holds a
terminal-triggering value, with a terminal-triggering slot store, is still
denied with RefundDenied1. -/
theorem not_good_standing_always_denied_witness :
    decide ⟨"not_good_standing", "Gold", "Yes", "Yes"⟩ [("item_category", "Digital")] =
      NavResult.decision "deny" "RefundDenied1" :=
  (not_good_standing_always_denied ⟨"not_good_standing", "Gold", "Yes", "Yes"⟩
    [("item_category", "Digital")] rfl).1

/-- C4: past the fast-path gates, a Physical, returnable item in damaged or
defective condition goes straight to the delivered check (STEP 11 is on the
path) and decide never asks for return_window or late_return_eligible. -/
theorem damaged_skips_return_window (p : Profile) (s : SlotStore)
    (hacct : p.account_status = "good_standing")
    (hfraud : ¬(p.loyalty_tier = "Gold" ∧ p.fraud_flag = "Yes"))
    (habuse : p.return_abuse ≠ "Yes")
    (hcat : getSlot s "item_category" = some "Physical")
    (hret : getSlot s "item_returnable" = some "Yes")
    (hcond : getSlot s "item_condition" = some "damaged"
      ∨ getSlot s "item_condition" = some "defective") :
    decide p s ≠ NavResult.needInfo "return_window"
    ∧ decide p s ≠ NavResult.needInfo "late_return_eligible"
    ∧ 11 ∈ navPath p s := by
  have h7 : step7 s = ((step11 s).1, 7 :: (step11 s).2) := by
    rcases hcond with hc | hc <;> simp [step7, hc]
  have h6 : step6 s = ((step7 s).1, 6 :: (step7 s).2) := by
    simp [step6, hret]
  have h5 : step5 s = ((step6 s).1, 5 :: (step6 s).2) := by
    simp [step5, hcat]
  have h4 : step4 p.return_abuse s = ((step5 s).1, 4 :: (step5 s).2) := by
    simp [step4, habuse]
  rcases step11_head s with ⟨l, hl⟩
  by_cases hg : p.loyalty_tier = "Gold"
  · have hf : p.fraud_flag ≠ "Yes" := fun h => hfraud ⟨hg, h⟩
    have hdec : decide p s = (step11 s).1 := by
      simp [decide, navigate, hacct, hg, hf, h4, h5, h6, h7]
    have hpath : navPath p s = 1 :: 2 :: 3 :: 4 :: 5 :: 6 :: 7 :: (step11 s).2 := by
      simp [navPath, navigate, hacct, hg, hf, h4, h5, h6, h7]
    refine ⟨?_, ?_, ?_⟩
    · rw [hdec]
      exact (step11_noRW s).1
    · rw [hdec]
      exact (step11_noRW s).2
    · rw [hpath, hl]
      simp
  · have hdec : decide p s = (step11 s).1 := by
      simp [decide, navigate, hacct, hg, h4, h5, h6, h7]
    have hpath : navPath p s = 1 :: 2 :: 4 :: 5 :: 6 :: 7 :: (step11 s).2 := by
      simp [navPath, navigate, hacct, hg, h4, h5, h6, h7]
    refine ⟨?_, ?_, ?_⟩
    · rw [hdec]
      exact (step11_noRW s).1
    · rw [hdec]
      exact (step11_noRW s).2
    · rw [hpath, hl]
      simp

/-- C4 witness: a damaged Physical returnable item with no further slots is
asked about delivery, not about the return window. -/
theorem damaged_skips_return_window_witness :
    decide ⟨"good_standing", "Bronze", "No", "No"⟩
        [("item_category", "Physical"), ("item_returnable", "Yes"),
         ("item_condition", "damaged")]
      ≠ NavResult.needInfo "return_window"
    ∧ 11 ∈ navPath ⟨"good_standing", "Bronze", "No", "No"⟩
        [("item_category", "Physical"), ("item_returnable", "Yes"),
         ("item_condition", "damaged")] :=
  ⟨(damaged_skips_return_window ⟨"good_standing", "Bronze", "No", "No"⟩
      [("item_category", "Physical"), ("item_returnable", "Yes"),
       ("item_condition", "damaged")]
      rfl (by decide) (by decide) (by decide) (by decide) (Or.inl (by decide))).1,
   (damaged_skips_return_window ⟨"good_standing", "Bronze", "No", "No"⟩
      [("item_category", "Physical"), ("item_returnable", "Yes"),
       ("item_condition", "damaged")]
      rfl (by decide) (by decide) (by decide) (by decide) (Or.inl (by decide))).2.2⟩

/-- C5: for a normal-condition item with an expired return window,
late_return_eligible = "Yes" ends in the terminal Decision(partial,
PartialRefund) with the delivered check (STEP 11) never visited, and
late_return_eligible = "No" ends in Decision(deny, RefundDenied6). -/
theorem expired_late_return_terminal (p : Profile) (s : SlotStore)
    (hacct : p.account_status = "good_standing")
    (hfraud : ¬(p.loyalty_tier = "Gold" ∧ p.fraud_flag = "Yes"))
    (habuse : p.return_abuse ≠ "Yes")
    (hcat : getSlot s "item_category" = some "Physical")
    (hret : getSlot s "item_returnable" = some "Yes")
    (hcond : getSlot s "item_condition" = some "normal")
    (hwin : getSlot s "return_window" = some "expired") :
    (getSlot s "late_return_eligible" = some "Yes" →
      decide p s = NavResult.decision "partial" "PartialRefund" ∧ 11 ∉ navPath p s)
    ∧ (getSlot s "late_return_eligible" = some "No" →
      decide p s = NavResult.decision "deny" "RefundDenied6") := by
  have h8 : step8 s = ((step9 s).1, 8 :: (step9 s).2) := by
    simp [step8, hwin]
  have h7 : step7 s = ((step8 s).1, 7 :: (step8 s).2) := by
    simp [step7, hcond]
  have h6 : step6 s = ((step7 s).1, 6 :: (step7 s).2) := by
    simp [step6, hret]
  have h5 : step5 s = ((step6 s).1, 5 :: (step6 s).2) := by
    simp [step5, hcat]
  have h4 : step4 p.return_abuse s = ((step5 s).1, 4 :: (step5 s).2) := by
    simp [step4, habuse]
  constructor
  · intro hy
    have h9 : step9 s = (NavResult.decision "partial" "PartialRefund", [9]) := by
      simp [step9, hy]
    by_cases hg : p.loyalty_tier = "Gold"
    · have hf : p.fraud_flag ≠ "Yes" := fun h => hfraud ⟨hg, h⟩
      constructor
      · simp [decide, navigate, hacct, hg, hf, h4, h5, h6, h7, h8, h9]
      · have hpath : navPath p s = [1, 2, 3, 4, 5, 6, 7, 8, 9] := by
          simp [navPath, navigate, hacct, hg, hf, h4, h5, h6, h7, h8, h9]
        rw [hpath]
        decide
    · constructor
      · simp [decide, navigate, hacct, hg, h4, h5, h6, h7, h8, h9]
      · have hpath : navPath p s = [1, 2, 4, 5, 6, 7, 8, 9] := by
          simp [navPath, navigate, hacct, hg, h4, h5, h6, h7, h8, h9]
        rw [hpath]
        decide
  · intro hn
    have h9 : step9 s = (NavResult.decision "deny" "RefundDenied6", [9]) := by
      simp [step9, hn]
    by_cases hg : p.loyalty_tier = "Gold"
    · have hf : p.fraud_flag ≠ "Yes" := fun h => hfraud ⟨hg, h⟩
      simp [decide, navigate, hacct, hg, hf, h4, h5, h6, h7, h8, h9]
    · simp [decide, navigate, hacct, hg, h4, h5, h6, h7, h8, h9]

/-- C5 witness: concrete expired-window inputs end in PartialRefund when
late-return eligible and in RefundDenied6 when not. -/
theorem expired_late_return_terminal_witness :
    decide ⟨"good_standing", "Gold", "No", "No"⟩
        [("item_category", "Physical"), ("item_returnable", "Yes"),
         ("item_condition", "normal"), ("return_window", "expired"),
         ("late_return_eligible", "Yes")] =
      NavResult.decision "partial" "PartialRefund"
    ∧ decide ⟨"good_standing", "Gold", "No", "No"⟩
        [("item_category", "Physical"), ("item_returnable", "Yes"),
         ("item_condition", "normal"), ("return_window", "expired"),
         ("late_return_eligible", "No")] =
      NavResult.decision "deny" "RefundDenied6" :=
  ⟨((expired_late_return_terminal ⟨"good_standing", "Gold", "No", "No"⟩
      [("item_category", "Physical"), ("item_returnable", "Yes"),
       ("item_condition", "normal"), ("return_window", "expired"),
       ("late_return_eligible", "Yes")]
      rfl (by decide) (by decide) (by decide) (by decide) (by decide) (by decide)).1
      (by decide)).1,
   (expired_late_return_terminal ⟨"good_standing", "Gold", "No", "No"⟩
      [("item_category", "Physical"), ("item_returnable", "Yes"),
       ("item_condition", "normal"), ("return_window", "expired"),
       ("late_return_eligible", "No")]
      rfl (by decide) (by decide) (by decide) (by decide) (by decide) (by decide)).2
      (by decide)⟩

/-- C6: decide is total, always returning exactly one NeedInfo or Decision
result, and the audit path visits at most 18 (in fact at most 13) steps. -/
theorem decide_total_and_bounded (p : Profile) (s : SlotStore) :
    ((∃ f, decide p s = NavResult.needInfo f)
      ∨ ∃ k n, decide p s = NavResult.decision k n)
    ∧ (navPath p s).length ≤ 18 := by
  constructor
  · cases h : decide p s with
    | needInfo f => exact Or.inl ⟨f, rfl⟩
    | decision k n => exact Or.inr ⟨k, n, rfl⟩
  · have := navPath_len p s
    omega

/-- The slot/domain table of
`MermaidDecisionTree._extract_valid_keywords`. -/
def valid_keywords : List (String × List String) := [
  ("account_status", ["good_standing", "not_good_standing"]),
  ("loyalty_tier", ["Bronze", "Silver", "Gold"]),
  ("fraud_flag", ["Yes", "No"]),
  ("return_abuse", ["Yes", "No"]),
  ("item_category", ["Perishable", "Digital", "Physical"]),
  ("item_returnable", ["Yes", "No"]),
  ("item_condition", ["damaged", "defective", "normal"]),
  ("return_window", ["within", "expired"]),
  ("late_return_eligible", ["Yes", "No"]),
  ("delivered", ["Yes", "No"]),
  ("shipping_issue", ["Lost", "Delayed", "Neither"]),
  ("seller_type", ["In-house", "Third-party"]),
  ("in_house_policy", ["Yes", "No"]),
  ("third_party_policy", ["Yes", "No"]),
  ("payment_method", ["BNPL", "CreditCard", "Prepaid", "GiftCard"]),
  ("bnpl_policy", ["Yes", "No"]),
  ("gift_card_policy", ["Yes", "No"]),
  ("manual_review_outcome", ["Approve", "Deny"]),
  ("shipping_review_outcome", ["Approve", "Deny"])]

/-- Association lookup in the keyword table. -/
def kwLookup : List (String × List String) → String → Option (List String)
  | [], _ => none
  | (k2, vs) :: rest, k => if k2 = k then some vs else kwLookup rest k

/-- The guard `key in valid_keywords and value in valid_keywords[key]` of
`_extract_information_from_input`. -/
def isValidPair (k v : String) : Bool :=
  match kwLookup valid_keywords k with
  | some vs => vs.contains v
  | none => false

/-- One guarded write of the extraction loop: stored only when the slot name
is recognized and the value is in its domain, otherwise a silent no-op. -/
def setExtracted (store : SlotStore) (k v : String) : SlotStore :=
  if isValidPair k v then storeSet store k v else store

/-- The whole validated write loop of one LLM extraction response. -/
def applyLlmWrites (store : SlotStore) (writes : List (String × String)) : SlotStore :=
  writes.foldl (fun st kv => setExtracted st kv.1 kv.2) store

/-- Character-list prefix test. -/
def leadsWith : List Char → List Char → Bool
  | [], _ => true
  | _ :: _, [] => false
  | c :: cs, d :: ds => c = d && leadsWith cs ds

/-- Character-list substring test, needle first. -/
def hasSubList (needle : List Char) : List Char → Bool
  | [] => leadsWith needle []
  | c :: rest => leadsWith needle (c :: rest) || hasSubList needle rest

/-- Python's `needle in hay` substring test. -/
def hasSub (hay needle : String) : Bool := hasSubList needle.data hay.data

/-- Python's `text.lower()`. -/
def strLower (s : String) : String := String.map Char.toLower s

/-- Python's `any(word in hay for word in words)`. -/
def containsAny (hay : String) (needles : List String) : Bool :=
  needles.any fun n => hasSub hay n

/-- The boolean-valued slots of `_fallback_extraction`. -/
def yesNoFields : List String :=
  ["item_returnable", "late_return_eligible", "delivered", "in_house_policy",
   "third_party_policy", "bnpl_policy", "gift_card_policy"]

/-- `_fallback_extraction`: deterministic keyword matching keyed on the last
asked field, applied when the LLM extraction response is unusable. The
`userLower` argument is the already lowercased, stripped user input. -/
def fallback_extraction (expectedField : Option String) (userLower : String)
    (store : SlotStore) : SlotStore :=
  match expectedField with
  | none => store
  | some f =>
    if yesNoFields.contains f then
      if containsAny userLower
          ["yes", "yeah", "yep", "sure", "correct", "right", "true", "eligible"] then
        storeSet store f "Yes"
      else if containsAny userLower
          ["no", "nah", "nope", "not", "false", "wrong", "ineligible"] then
        storeSet store f "No"
      else store
    else if f = "return_window" then
      if containsAny userLower ["yes", "within", "inside", "valid", "before"] then
        storeSet store f "within"
      else if containsAny userLower ["no", "expired", "past", "late", "outside", "beyond"] then
        storeSet store f "expired"
      else store
    else if f = "shipping_issue" then
      if hasSub userLower "lost" then storeSet store f "Lost"
      else if hasSub userLower "delayed" then storeSet store f "Delayed"
      else if containsAny userLower ["neither", "not lost", "not delayed", "none"] then
        storeSet store f "Neither"
      else store
    else if f = "seller_type" then
      if containsAny userLower ["third party", "marketplace", "external", "third-party"] then
        storeSet store f "Third-party"
      else if containsAny userLower ["in-house", "direct", "company", "our company"] then
        storeSet store f "In-house"
      else store
    else if f = "payment_method" then
      if containsAny userLower ["credit card", "visa", "mastercard", "amex"] then
        storeSet store f "CreditCard"
      else if containsAny userLower ["gift card", "store credit", "voucher"] then
        storeSet store f "GiftCard"
      else if containsAny userLower ["bnpl", "klarna", "afterpay", "buy now pay later"] then
        storeSet store f "BNPL"
      else if containsAny userLower ["prepaid", "debit", "debit card"] then
        storeSet store f "Prepaid"
      else store
    else store

/-- One extraction turn, either the validated LLM write loop or the fallback
keyword matcher. -/
inductive ExtractionTurn where
  | llm (writes : List (String × String))
  | fallback (expectedField : Option String) (userLower : String)

/-- Apply one extraction turn to the slot store. -/
def applyTurn (store : SlotStore) : ExtractionTurn → SlotStore
  | .llm writes => applyLlmWrites store writes
  | .fallback f u => fallback_extraction f u store

/-- Apply a sequence of extraction turns in order. -/
def applyTurns (store : SlotStore) (ts : List ExtractionTurn) : SlotStore :=
  ts.foldl applyTurn store

/-- The SlotStore invariant: every stored value lies in its slot's domain. -/
def validStore (store : SlotStore) : Prop :=
  ∀ kv ∈ store, isValidPair kv.1 kv.2 = true

/-- An unconditional dictionary write of an in-domain pair preserves the
invariant. -/
theorem storeSet_valid {store : SlotStore} (hs : validStore store)
    {k v : String} (hkv : isValidPair k v = true) :
    validStore (storeSet store k v) := by
  induction store with
  | nil =>
    intro kv hm
    simp only [storeSet, List.mem_singleton] at hm
    subst hm
    exact hkv
  | cons hd tl ih =>
    intro kv hm
    simp only [storeSet] at hm
    split at hm
    · rcases List.mem_cons.mp hm with rfl | hm
      · exact hkv
      · exact hs kv (List.mem_cons_of_mem hd hm)
    · rcases List.mem_cons.mp hm with rfl | hm
      · exact hs hd (List.mem_cons_self hd tl)
      · exact ih (fun x hx => hs x (List.mem_cons_of_mem hd hx)) kv hm

/-- A guarded write preserves the invariant. -/
theorem setExtracted_valid {store : SlotStore} (hs : validStore store)
    (k v : String) : validStore (setExtracted store k v) := by
  unfold setExtracted
  split
  · exact storeSet_valid hs (by assumption)
  · exact hs

/-- A guarded write of an out-of-domain pair is a no-op. -/
theorem setExtracted_invalid {k v : String} (h : isValidPair k v = false)
    (store : SlotStore) : setExtracted store k v = store := by
  simp [setExtracted, h]

/-- The validated LLM write loop preserves the invariant. -/
theorem applyLlmWrites_valid {store : SlotStore} (hs : validStore store)
    (writes : List (String × String)) : validStore (applyLlmWrites store writes) := by
  induction writes generalizing store with
  | nil => exact hs
  | cons w ws ih => exact ih (setExtracted_valid hs w.1 w.2)

/-- Every boolean-style fallback field accepts Yes and No. -/
theorem yesNoFields_valid {f : String} (h : yesNoFields.contains f = true) :
    isValidPair f "Yes" = true ∧ isValidPair f "No" = true := by
  have hm : f ∈ yesNoFields := by simpa using h
  fin_cases hm <;> decide

/-- The fallback keyword matcher preserves the invariant: every value it can
write is in the expected field's domain. -/
theorem fallback_extraction_valid {store : SlotStore} (hs : validStore store)
    (f : Option String) (u : String) :
    validStore (fallback_extraction f u store) := by
  unfold fallback_extraction
  cases f with
  | none => exact hs
  | some f =>
    by_cases hb : yesNoFields.contains f = true
    · simp only [hb, if_true]
      split
      · exact storeSet_valid hs (yesNoFields_valid hb).1
      · split
        · exact storeSet_valid hs (yesNoFields_valid hb).2
        · exact hs
    · simp only [Bool.not_eq_true] at hb
      simp only [hb, Bool.false_eq_true, if_false]
      split
      · subst f
        split
        · exact storeSet_valid hs (by decide)
        · split
          · exact storeSet_valid hs (by decide)
          · exact hs
      · split
        · subst f
          split
          · exact storeSet_valid hs (by decide)
          · split
            · exact storeSet_valid hs (by decide)
            · split
              · exact storeSet_valid hs (by decide)
              · exact hs
        · split
          · subst f
            split
            · exact storeSet_valid hs (by decide)
            · split
              · exact storeSet_valid hs (by decide)
              · exact hs
          · split
            · subst f
              split
              · exact storeSet_valid hs (by decide)
              · split
                · exact storeSet_valid hs (by decide)
                · split
                  · exact storeSet_valid hs (by decide)
                  · split
                    · exact storeSet_valid hs (by decide)
                    · exact hs
            · exact hs

/-- Any extraction turn preserves the invariant. -/
theorem applyTurn_valid {store : SlotStore} (hs : validStore store)
    (t : ExtractionTurn) : validStore (applyTurn store t) := by
  cases t with
  | llm ws => exact applyLlmWrites_valid hs ws
  | fallback f u => exact fallback_extraction_valid hs f u

/-- Any sequence of extraction turns preserves the invariant. -/
theorem applyTurns_valid {store : SlotStore} (hs : validStore store)
    (ts : List ExtractionTurn) : validStore (applyTurns store ts) := by
  induction ts generalizing store with
  | nil => exact hs
  | cons t ts ih => exact ih (applyTurn_valid hs t)

/-- C7: after any sequence of extraction turns starting from a valid store,
every stored value is in its slot's domain; a write of an out-of-domain value
or unrecognized slot name is a silent no-op, leaving the slot's lookup (and
in particular its absence) unchanged. -/
theorem slot_store_invariant (turns : List ExtractionTurn) (store : SlotStore)
    (hstore : validStore store) :
    validStore (applyTurns store turns)
    ∧ ∀ (st : SlotStore) (k v : String), isValidPair k v = false →
        setExtracted st k v = st ∧ getSlot (setExtracted st k v) k = getSlot st k := by
  refine ⟨applyTurns_valid hstore turns, ?_⟩
  intro st k v h
  have hz := setExtracted_invalid h st
  exact ⟨hz, by rw [hz]⟩

/-- C7 witness: a concrete turn sequence, including an out-of-domain LLM
candidate and a fallback answer, yields a valid store; the out-of-domain
write "broken" to item_condition is rejected and the slot stays absent. -/
theorem slot_store_invariant_witness :
    validStore (applyTurns []
      [ExtractionTurn.llm [("item_condition", "broken"), ("item_category", "Physical")],
       ExtractionTurn.fallback (some "delivered") "yes it was delivered"])
    ∧ setExtracted [] "item_condition" "broken" = []
    ∧ getSlot (setExtracted [] "item_condition" "broken") "item_condition" = none :=
  ⟨(slot_store_invariant
      [ExtractionTurn.llm [("item_condition", "broken"), ("item_category", "Physical")],
       ExtractionTurn.fallback (some "delivered") "yes it was delivered"]
      [] (by simp [validStore])).1,
   ((slot_store_invariant [] [] (by simp [validStore])).2 [] "item_condition" "broken"
      (by decide)).1,
   (((slot_store_invariant [] [] (by simp [validStore])).2 [] "item_condition" "broken"
      (by decide)).2).trans rfl⟩

/-- The customer-data JSON document, modelled as a string-keyed dictionary
with values rendered as strings. -/
abbrev CustomerData := List (String × String)

/-- The hard-coded default customer data of `load_customer_data`, used when
the customer file is not found. -/
def default_customer_data : CustomerData :=
  [("customer_id", "UNKNOWN"), ("account_status", "good_standing"),
   ("loyalty_tier", "Gold"), ("fraud_flag", "No"), ("return_abuse", "No"),
   ("account_age_months", "12"), ("total_purchases", "50"),
   ("lifetime_value", "1000.0"), ("previous_returns", "3"),
   ("last_return_date", "2024-01-01"), ("region", "US"),
   ("customer_since", "2023-01-01")]

/-- The value held by `self.customer_data`: normally a JSON object
(dictionary), but after loading a customer file that parses to a non-object
JSON value (array, string, number, boolean, null) it is that raw value,
carried here as its rendered text. -/
inductive JsonValue where
  | obj (d : CustomerData)
  | other (text : String)
deriving DecidableEq, Repr

/-- The possible outcomes of opening and parsing the customer file:
`found d` when the file parses to a JSON object `d`; `fileNotFound` for a
FileNotFoundError from `open`; `raisesBeforeLoad` when opening, reading or
`json.load` raises any other exception (for example invalid JSON), which
happens before the assignment to `self.customer_data`; `nonObject text` when
the file parses to a valid non-object JSON value rendered as `text`. -/
inductive LoadInput where
  | found (d : CustomerData)
  | fileNotFound
  | raisesBeforeLoad
  | nonObject (text : String)
deriving DecidableEq, Repr

/-- `load_customer_data`: on success stores the document and returns True; on
FileNotFoundError substitutes `default_customer_data` and returns False; when
open/read/`json.load` raises, the generic except branch returns False with
`self.customer_data` still `current`; when the file parses to a non-object
value, the assignment on line 45 stores that value and only then the `.get`
on line 46 raises AttributeError into the generic except, so the loader
returns False with the non-object stored. It never raises, so session
creation continues in all four cases. -/
def load_customer_data (current : JsonValue) : LoadInput → JsonValue × Bool
  | .found d => (JsonValue.obj d, true)
  | .fileNotFound => (JsonValue.obj default_customer_data, false)
  | .raisesBeforeLoad => (current, false)
  | .nonObject text => (JsonValue.other text, false)

/-- C8 counterexample: for malformed customer files (with the engine's
initial empty customer data), the loader does not substitute the default
profile: invalid JSON leaves the customer data empty, and a JSON array
leaves the parsed non-object stored; in neither case do the default profile
facts appear. -/
theorem load_customer_data_malformed_no_default :
    (load_customer_data (JsonValue.obj []) LoadInput.raisesBeforeLoad).1
        ≠ JsonValue.obj default_customer_data
    ∧ (load_customer_data (JsonValue.obj []) LoadInput.raisesBeforeLoad).1
        = JsonValue.obj []
    ∧ (load_customer_data (JsonValue.obj []) (LoadInput.nonObject "[1, 2, 3]")).1
        ≠ JsonValue.obj default_customer_data
    ∧ (load_customer_data (JsonValue.obj []) (LoadInput.nonObject "[1, 2, 3]")).1
        = JsonValue.other "[1, 2, 3]" := by
  decide

/-- C8 (amended): session creation never aborts — the loader always returns
instead of raising; a missing (file-not-found) input substitutes the fixed
default profile; a malformed input substitutes no default: when the
exception precedes the load the customer data is left unchanged, and when
the file parses to a non-object JSON value that value is stored; in every
failure case the loader returns False. -/
theorem load_customer_data_behavior (current : JsonValue) (d : CustomerData)
    (t : String) :
    load_customer_data current LoadInput.fileNotFound
        = (JsonValue.obj default_customer_data, false)
    ∧ load_customer_data current LoadInput.raisesBeforeLoad = (current, false)
    ∧ load_customer_data current (LoadInput.nonObject t) = (JsonValue.other t, false)
    ∧ load_customer_data current (LoadInput.found d) = (JsonValue.obj d, true) :=
  ⟨rfl, rfl, rfl, rfl⟩

/-- One conversation history entry: the role, content and timestamp keys of
`self.conversation_history`. -/
structure HistoryEntry where
  role : String
  content : String
  timestamp : String
deriving DecidableEq, Repr

/-- The engine state captured by `export_conversation`: customer data
(profile facts), extracted info (slot store), conversation history, and the
current state. -/
structure Session where
  customer_data : CustomerData
  extracted_info : SlotStore
  conversation_history : List HistoryEntry
  current_state : String
deriving DecidableEq, Repr

/-- The JSON document written by `export_conversation`. -/
structure ExportDoc where
  customer_data : CustomerData
  extracted_info : SlotStore
  conversation_history : List HistoryEntry
  final_state : String
  export_timestamp : String
deriving DecidableEq, Repr

/-- `export_conversation`: the exported document content, with `now` the
export timestamp taken at the time of the call. -/
def export_conversation (sess : Session) (now : String) : ExportDoc :=
  { customer_data := sess.customer_data
    extracted_info := sess.extracted_info
    conversation_history := sess.conversation_history
    final_state := sess.current_state
    export_timestamp := now }

/-- Modelled from the spec: a reimport operation is absent from the
repository source (only `export_conversation` exists); per the export
interface, reimport reads the exported JSON document back into a session,
restoring profile facts, slot store, history and state. -/
def reimport (doc : ExportDoc) : Session :=
  { customer_data := doc.customer_data
    extracted_info := doc.extracted_info
    conversation_history := doc.conversation_history
    current_state := doc.final_state }

/-- C9: exporting a session and reimporting the document reproduces the
identical slot store, profile facts, and turn history. -/
theorem export_reimport_roundtrip (sess : Session) (now : String) :
    (reimport (export_conversation sess now)).extracted_info = sess.extracted_info
    ∧ (reimport (export_conversation sess now)).customer_data = sess.customer_data
    ∧ (reimport (export_conversation sess now)).conversation_history
        = sess.conversation_history :=
  ⟨rfl, rfl, rfl⟩

/-- The dictionaries `_parse_navigation_response` can return: a NEED_INFO
result (stuck_at_node, missing_field, context), a DECISION result (decision,
reason, terminal_node, decision_path), or an ERROR result. -/
inductive ParseOutcome where
  | needInfo (stuckAtNode missingField ctx : String)
  | decision (dec reason terminalNode decisionPath : String)
  | parseFailure (msg : String)
deriving DecidableEq, Repr

/-- The `field_patterns` table of Approach 3 in `_parse_navigation_response`,
with each regex alternation expanded into its literal alternatives. -/
def field_patterns : List (String × List String) := [
  ("item_returnable", ["item_returnable", "returnable"]),
  ("item_condition", ["item_condition", "condition"]),
  ("delivered", ["delivered"]),
  ("seller_type", ["seller_type", "seller"]),
  ("payment_method", ["payment_method", "payment"]),
  ("shipping_issue", ["shipping_issue", "shipping"]),
  ("return_window", ["return_window", "window"]),
  ("late_return_eligible", ["late_return_eligible", "late"]),
  ("in_house_policy", ["in_house_policy", "in-house"]),
  ("third_party_policy", ["third_party_policy", "third-party"]),
  ("bnpl_policy", ["bnpl_policy", "bnpl"]),
  ("gift_card_policy", ["gift_card_policy", "gift"])]

/-- Approach 3 of `_parse_navigation_response`: scan the field patterns in
order with a case-insensitive search and return NEED_INFO for the first field
mentioned in the text, else the final ERROR fallback. -/
def manualExtract (text : String) : ParseOutcome :=
  match field_patterns.find? (fun fp => containsAny (strLower text) fp.2) with
  | some fp =>
      ParseOutcome.needInfo "ItemEligible" fp.1
        ("Manual extraction found reference to " ++ fp.1)
  | none => ParseOutcome.parseFailure "Could not parse navigation response"

/-- `_parse_navigation_response`. The `jsonResult` argument abstracts
Approaches 1 and 2 (regex extraction and parsing of a JSON object carrying a
"status" key from the response text): it is `some r` when such an object is
found and `none` when the text contains no parseable JSON object with a
status key, in which case the manual Approach 3 fallback runs. -/
def parse_navigation_response (jsonResult : Option ParseOutcome)
    (text : String) : ParseOutcome :=
  match jsonResult with
  | some r => r
  | none => manualExtract text

/-- C10: on a response with no parseable JSON status object, the parser never
fabricates a DECISION: it returns NEED_INFO for one of the twelve patterned
conversation slots actually mentioned in the text, or the ERROR result. -/
theorem unparseable_never_decides (text : String) :
    (∀ d r t pth, parse_navigation_response none text ≠ ParseOutcome.decision d r t pth)
    ∧ ((∃ fp, fp ∈ field_patterns ∧ containsAny (strLower text) fp.2 = true
          ∧ parse_navigation_response none text =
              ParseOutcome.needInfo "ItemEligible" fp.1
                ("Manual extraction found reference to " ++ fp.1))
        ∨ parse_navigation_response none text =
            ParseOutcome.parseFailure "Could not parse navigation response") := by
  have hp : parse_navigation_response none text = manualExtract text := rfl
  rw [hp]
  unfold manualExtract
  cases hf : field_patterns.find? (fun fp => containsAny (strLower text) fp.2) with
  | none => exact ⟨by simp, Or.inr rfl⟩
  | some fp =>
    refine ⟨by simp, Or.inl ⟨fp, List.mem_of_find?_eq_some hf, ?_, rfl⟩⟩
    have hq := @List.find?_some (String × List String)
      (fun x => containsAny (strLower text) x.2) fp field_patterns hf
    simpa using hq

end RefundBot
